import Mathlib

/-!
Shallow embedding of the iteration/revision progress-tracking core and the
loop-catalog validation logic of the questfoundry CLI
(`src/qf/formatting/loop_progress.py`, `src/qf/formatting/iterations.py`,
`src/qf/commands/run.py`).

Timestamps (`datetime`) are modelled as integers (seconds); durations are the
corresponding integer differences.  Python's `Optional[datetime]` becomes
`Option Int`; truthiness of a `datetime` object is `Option.isSome` (a
`datetime` value is always truthy in Python).
-/

deriving instance DecidableEq for Except

namespace QF

/-- `Step` dataclass from `loop_progress.py`: a single step execution within
an iteration. -/
structure Step where
  name : String
  agent : String
  is_revision : Bool := false
  start_time : Option Int := none
  end_time : Option Int := none
  blocked : Bool := false
  blocking_issues : List String := []
deriving DecidableEq, Repr

/-- `Step.duration`: duration in seconds, or 0 if not completed. -/
def Step.duration (s : Step) : Int :=
  match s.start_time, s.end_time with
  | some a, some b => b - a
  | _, _ => 0

/-- `Step.status`: the source checks, in order, `blocked`, then `end_time`,
then `start_time`. -/
def Step.status (s : Step) : String :=
  if s.blocked then "blocked"
  else if s.end_time.isSome then "completed"
  else if s.start_time.isSome then "running"
  else "pending"

/-- `Iteration` dataclass from `loop_progress.py`: a single iteration of a
loop. -/
structure Iteration where
  iteration_number : Nat
  steps : List Step := []
  start_time : Option Int := none
  end_time : Option Int := none
  stabilized : Bool := false
  showrunner_decision : Option String := none
deriving DecidableEq, Repr

/-- `Iteration.duration`: duration in seconds, or 0 if not completed. -/
def Iteration.duration (it : Iteration) : Int :=
  match it.start_time, it.end_time with
  | some a, some b => b - a
  | _, _ => 0

/-- `Iteration.completed_steps`: count of steps whose status is "completed". -/
def Iteration.completed_steps (it : Iteration) : Nat :=
  it.steps.countP (fun s => s.status == "completed")

/-- `Iteration.blocked_steps`: count of steps whose status is "blocked". -/
def Iteration.blocked_steps (it : Iteration) : Nat :=
  it.steps.countP (fun s => s.status == "blocked")

/-- `Iteration.revised_steps`: count of revision steps in this iteration. -/
def Iteration.revised_steps (it : Iteration) : Nat :=
  it.steps.countP (fun s => s.is_revision)

/-- `Iteration.first_pass_steps`: count of first-pass steps in this
iteration. -/
def Iteration.first_pass_steps (it : Iteration) : Nat :=
  it.steps.countP (fun s => !s.is_revision)

/-- The status derivation that claim C1 (spec §8) describes: after `blocked`,
it checks `start_time` before `end_time`.  Stated from the spec's words, to be
compared with the source's `Step.status`. -/
def Step.statusSpecC1 (s : Step) : String :=
  if s.blocked then "blocked"
  else if s.start_time.isNone then "pending"
  else if s.end_time.isNone then "running"
  else "completed"

/-- `LoopProgressTracker` dataclass from `loop_progress.py`.  In the source,
`current_iteration` is a Python reference to an object also held in
`iterations` (mutations through it alias into the list); it is modelled here
as an index into `iterations`.  The source's API only ever points it at the
most recently appended iteration, so the index is in range in every reachable
state. -/
structure LoopProgressTracker where
  loop_name : String
  iterations : List Iteration := []
  start_time : Option Int := none
  current_iteration : Option Nat := none
deriving DecidableEq, Repr

/-- Replace the element at index `i` by `f` of it; out-of-range indices leave
the list unchanged (such indices do not occur in reachable tracker states). -/
def updateAt {α : Type} : List α → Nat → (α → α) → List α
  | [], _, _ => []
  | x :: xs, 0, f => f x :: xs
  | x :: xs, n + 1, f => x :: updateAt xs n f

namespace LoopProgressTracker

/-- Dereference the `current_iteration` pointer. -/
def getCurrent (t : LoopProgressTracker) : Option Iteration :=
  t.current_iteration.bind (fun i => t.iterations.get? i)

/-- Apply `f` to the iteration the `current_iteration` pointer aliases; a
no-op when the pointer is unset (the source guards with
`if self.current_iteration:`). -/
def modifyCurrent (t : LoopProgressTracker) (f : Iteration → Iteration) :
    LoopProgressTracker :=
  match t.current_iteration with
  | none => t
  | some i => { t with iterations := updateAt t.iterations i f }

/-- `start_loop`: record loop start time. -/
def start_loop (t : LoopProgressTracker) (now : Int) : LoopProgressTracker :=
  { t with start_time := some now }

/-- `start_iteration`: append a new iteration and make it current. -/
def start_iteration (t : LoopProgressTracker) (n : Nat) (now : Int) :
    LoopProgressTracker :=
  { t with
    iterations := t.iterations ++
      [{ iteration_number := n, start_time := some now }],
    current_iteration := some t.iterations.length }

/-- `start_step`: raises `RuntimeError` when no iteration is active (modelled
as `Except.error`); otherwise builds a step with `start_time = now`, appends
it to the current iteration's step list, and returns it (with the updated
tracker). -/
def start_step (t : LoopProgressTracker) (step_name agent : String)
    (is_revision : Bool) (now : Int) :
    Except String (Step × LoopProgressTracker) :=
  match t.current_iteration with
  | none => .error "No active iteration. Call start_iteration first."
  | some i =>
    let step : Step :=
      { name := step_name, agent := agent, is_revision := is_revision,
        start_time := some now }
    .ok (step,
      { t with iterations :=
          updateAt t.iterations i (fun it => { it with steps := it.steps ++ [step] }) })

/-- `complete_step`: sets `end_time = now` on the given step.  The step is a
Python object reference; a step held by the tracker is addressed here by
(iteration index, step index). -/
def complete_step (t : LoopProgressTracker) (i j : Nat) (now : Int) :
    LoopProgressTracker :=
  { t with iterations :=
      updateAt t.iterations i (fun it =>
        { it with steps := updateAt it.steps j (fun s => { s with end_time := some now }) }) }

/-- `block_step`: sets `blocked = true`, stores the issues, and sets
`end_time = now` on the given step (addressed as in `complete_step`). -/
def block_step (t : LoopProgressTracker) (i j : Nat) (issues : List String)
    (now : Int) : LoopProgressTracker :=
  { t with iterations :=
      updateAt t.iterations i (fun it =>
        { it with steps := updateAt it.steps j (fun s =>
            { s with blocked := true, blocking_issues := issues,
                     end_time := some now }) }) }

/-- `record_showrunner_decision`: attaches the decision to the current
iteration; a no-op when none is active. -/
def record_showrunner_decision (t : LoopProgressTracker) (decision : String) :
    LoopProgressTracker :=
  t.modifyCurrent (fun it => { it with showrunner_decision := some decision })

/-- `complete_iteration`: sets `end_time = now` on the current iteration; a
no-op when none is active. -/
def complete_iteration (t : LoopProgressTracker) (now : Int) :
    LoopProgressTracker :=
  t.modifyCurrent (fun it => { it with end_time := some now })

/-- `mark_stabilized`: sets `stabilized = true` and `end_time = now` on the
current iteration; a no-op when none is active. -/
def mark_stabilized (t : LoopProgressTracker) (now : Int) :
    LoopProgressTracker :=
  t.modifyCurrent (fun it => { it with stabilized := true, end_time := some now })

/-- `total_duration`: now minus `start_time`, or 0 if the loop was not
started.  Reads the wall clock, passed here explicitly. -/
def total_duration (t : LoopProgressTracker) (now : Int) : Int :=
  match t.start_time with
  | some s => now - s
  | none => 0

/-- `is_multi_iteration`: true if the loop has more than one iteration. -/
def is_multi_iteration (t : LoopProgressTracker) : Bool :=
  t.iterations.length > 1

/-- `stabilized`: the current iteration's flag, or false when none is
active. -/
def stabilized (t : LoopProgressTracker) : Bool :=
  match t.getCurrent with
  | some it => it.stabilized
  | none => false

end LoopProgressTracker

/-- One row of the `iterations` list in `get_summary`'s result. -/
structure IterationSummary where
  number : Nat
  completed_steps : Nat
  blocked_steps : Nat
  revised_steps : Nat
  first_pass_steps : Nat
  duration : Int
  stabilized : Bool
  showrunner_decision : Option String
deriving DecidableEq, Repr

/-- The dictionary returned by `get_summary`. -/
structure Summary where
  loop_name : String
  iteration_count : Nat
  total_steps : Nat
  total_duration : Int
  is_multi_iteration : Bool
  stabilized : Bool
  iterations : List IterationSummary
deriving DecidableEq, Repr

/-- `get_summary`: summary statistics about loop execution.  `total_duration`
reads the wall clock (explicit `now`). -/
def LoopProgressTracker.get_summary (t : LoopProgressTracker) (now : Int) :
    Summary :=
  { loop_name := t.loop_name,
    iteration_count := t.iterations.length,
    total_steps := (t.iterations.map (fun i => i.steps.length)).sum,
    total_duration := t.total_duration now,
    is_multi_iteration := t.is_multi_iteration,
    stabilized := t.stabilized,
    iterations := t.iterations.map (fun i =>
      { number := i.iteration_number,
        completed_steps := i.completed_steps,
        blocked_steps := i.blocked_steps,
        revised_steps := i.revised_steps,
        first_pass_steps := i.first_pass_steps,
        duration := i.duration,
        stabilized := i.stabilized,
        showrunner_decision := i.showrunner_decision }) }

/-- The efficiency computation inside `display_efficiency_metrics`
(`iterations.py`): `reused / total * 100`, guarded by `if total_steps > 0`,
else 0.  Python float division is modelled over `ℚ`. -/
def efficiency_percent (t : LoopProgressTracker) : ℚ :=
  let total_steps : Nat := (t.iterations.map (fun i => i.steps.length)).sum
  let revised_steps : Nat := (t.iterations.map Iteration.revised_steps).sum
  let reused_steps : Int := (total_steps : Int) - (revised_steps : Int)
  if total_steps > 0 then (reused_steps : ℚ) / (total_steps : ℚ) * 100 else 0

/-- Total step executions across all iterations, as computed in both
`get_summary` and `display_efficiency_metrics`. -/
def totalSteps (t : LoopProgressTracker) : Nat :=
  (t.iterations.map (fun i => i.steps.length)).sum

/-- Total revision steps across all iterations
(`display_efficiency_metrics`). -/
def totalRevised (t : LoopProgressTracker) : Nat :=
  (t.iterations.map Iteration.revised_steps).sum

/-- Python `str.lower()`: lowercase each character. -/
def strLower (s : String) : String :=
  ⟨s.data.map Char.toLower⟩

/-- Python `str.strip()`: drop leading and trailing whitespace. -/
def strStrip (s : String) : String :=
  ⟨((s.data.dropWhile Char.isWhitespace).reverse.dropWhile
      Char.isWhitespace).reverse⟩

/-- Python `str.replace(" ", "-")`: the pattern is a single character, so
this is a character-wise map. -/
def replaceSpaces (s : String) : String :=
  ⟨s.data.map (fun c => if c = ' ' then '-' else c)⟩

/-- One catalog entry.  Of the fields in `loops.yml`
(`display_name`, `abbrev`, `category`, `description`), `validate_loop_name`
reads only `display_name`, so only it and the key `id` are modelled. -/
structure LoopDef where
  id : String
  display_name : String
deriving DecidableEq, Repr

/-- Modelled from the spec: the packaged catalog data file
(`src/qf/data/loops.yml`) is not under `src/`; only its loader and readers
are.  The spec names two entries explicitly (`story-spark` with display name
"Story Spark", and "Hook Harvest"), with ids kebab-case canonical and unique
and display names unique. -/
def LOOPS : List LoopDef :=
  [ { id := "story-spark", display_name := "Story Spark" },
    { id := "hook-harvest", display_name := "Hook Harvest" } ]

/-- `validate_loop_name` (`run.py`): normalize by lowercasing, trimming and
replacing spaces with hyphens; exact id match first, then case-insensitive
display-name match; otherwise `typer.Exit(1)` (modelled as `Except.error 1`).
Parametrized by the catalog the source holds in the module-level `LOOPS`. -/
def validate_loop_name (loops : List LoopDef) (loop_name : String) :
    Except Nat String :=
  let normalized := replaceSpaces (strStrip (strLower loop_name))
  if loops.any (fun l => l.id == normalized) then
    .ok normalized
  else
    match loops.find? (fun l => strLower l.display_name == strLower loop_name) with
    | some l => .ok l.id
    | none => .error 1

/-- `validate_story_spark_seed` (`run.py`): the `QUESTFOUNDRY_SEED`
environment variable if truthy (non-empty), else the stripped content of
`.questfoundry/seed.txt` if that file exists, else `None`.  `envSeed`/
`fileContent` are `none` when the variable/file is absent. -/
def validate_story_spark_seed (envSeed fileContent : Option String) :
    Option String :=
  match envSeed with
  | some s => if s = "" then fileContent.map strStrip else some s
  | none => fileContent.map strStrip

/-- The story-spark branch of `_run` (`run.py`): exits 1 when
`validate_story_spark_seed` yields nothing truthy (`if not story_seed`),
otherwise proceeds. -/
def story_spark_gate (envSeed fileContent : Option String) : Except Nat Unit :=
  match validate_story_spark_seed envSeed fileContent with
  | none => .error 1
  | some s => if s = "" then .error 1 else .ok ()

/-- Modelled from the spec: claim C8's seed resolution over three sources —
"a non-empty seed string must be resolvable from (in order of precedence) an
explicit command-line flag, an environment variable, or a file in the
workspace".  The first non-empty source wins.  Stated from the spec's words,
to be compared with the source's flag-less `validate_story_spark_seed`. -/
def resolveSeedSpecC8 (flag envSeed fileContent : Option String) :
    Option String :=
  let nonempty : Option String → Option String :=
    fun o => o.bind (fun s => if s = "" then none else some s)
  (nonempty flag).orElse (fun _ =>
    (nonempty envSeed).orElse (fun _ => nonempty fileContent))

/-- The tracker's mutating operations, for quantifying over operation
sequences. -/
inductive Op where
  | start_loop : Op
  | start_iteration : Nat → Op
  | start_step : String → String → Bool → Op
  | complete_step : Nat → Nat → Op
  | block_step : Nat → Nat → List String → Op
  | record_showrunner_decision : String → Op
  | complete_iteration : Op
  | mark_stabilized : Op

/-- Apply one operation at wall-clock time `now`.  A `start_step` with no
active iteration raises in the source; the tracker state is unchanged at the
raise point. -/
def applyOp (t : LoopProgressTracker) (op : Op) (now : Int) :
    LoopProgressTracker :=
  match op with
  | .start_loop => t.start_loop now
  | .start_iteration n => t.start_iteration n now
  | .start_step name agent rev =>
    match t.start_step name agent rev now with
    | .ok (_, t') => t'
    | .error _ => t
  | .complete_step i j => t.complete_step i j now
  | .block_step i j issues => t.block_step i j issues now
  | .record_showrunner_decision d => t.record_showrunner_decision d
  | .complete_iteration => t.complete_iteration now
  | .mark_stabilized => t.mark_stabilized now

/-- Run a sequence of timestamped operations. -/
def runOps (t : LoopProgressTracker) : List (Op × Int) → LoopProgressTracker
  | [] => t
  | (op, now) :: rest => runOps (applyOp t op now) rest

/-- The invariant of claim C7: a stabilized iteration has an end time. -/
def stabImpliesEnd (t : LoopProgressTracker) : Prop :=
  ∀ it ∈ t.iterations, it.stabilized = true → it.end_time ≠ none

/-- Every element of `updateAt l i f` is an element of `l` or the image under
`f` of one. -/
theorem mem_updateAt {α : Type} {a : α} :
    ∀ {l : List α} {i : Nat} {f : α → α},
      a ∈ updateAt l i f → a ∈ l ∨ ∃ b, b ∈ l ∧ a = f b := by
  intro l
  induction l with
  | nil => intro i f h; exact absurd h (by simp [updateAt])
  | cons x xs ih =>
    intro i f h
    cases i with
    | zero =>
      simp only [updateAt, List.mem_cons] at h
      rcases h with h | h
      · exact Or.inr ⟨x, List.mem_cons_self x xs, h⟩
      · exact Or.inl (List.mem_cons_of_mem x h)
    | succ n =>
      simp only [updateAt, List.mem_cons] at h
      rcases h with h | h
      · exact Or.inl (h ▸ List.mem_cons_self x xs)
      · rcases ih h with h' | ⟨b, hb, hab⟩
        · exact Or.inl (List.mem_cons_of_mem x h')
        · exact Or.inr ⟨b, List.mem_cons_of_mem x hb, hab⟩

/-- Two pointwise-incompatible Boolean predicates count at most the whole
list between them. -/
theorem countP_add_countP_le_length {α : Type} (p q : α → Bool) (l : List α)
    (h : ∀ a, ¬(p a = true ∧ q a = true)) :
    l.countP p + l.countP q ≤ l.length := by
  induction l with
  | nil => simp
  | cons x xs ih =>
    simp only [List.countP_cons, List.length_cons]
    have hx := h x
    by_cases hp : p x = true
    · have hq : ¬q x = true := fun hq => hx ⟨hp, hq⟩
      simp [hp, hq] at *
      omega
    · simp [hp] at *
      split <;> omega

/-- A Boolean predicate and its negation count exactly the whole list. -/
theorem countP_add_countP_not_eq_length {α : Type} (p : α → Bool) (l : List α) :
    l.countP p + l.countP (fun a => !p a) = l.length := by
  induction l with
  | nil => simp
  | cons x xs ih =>
    simp only [List.countP_cons, List.length_cons]
    by_cases hp : p x = true <;> simp [hp] <;> omega

/-- C1 counterexample: the claim's status derivation checks `start_time`
before `end_time`, predicting "pending" for a step with `end_time` set but
`start_time` unset; the source checks `end_time` first and reports
"completed" there. -/
theorem c1_counterexample :
    Step.status { name := "s", agent := "a", start_time := none,
                  end_time := some 0 } = "completed" ∧
    Step.statusSpecC1 { name := "s", agent := "a", start_time := none,
                        end_time := some 0 } = "pending" ∧
    ("completed" : String) ≠ "pending" := by
  refine ⟨rfl, rfl, by decide⟩

/-- C1 (amended): step status is a pure function of the step's fields with
`blocked` taking precedence; otherwise a step with `end_time` set reports
"completed" (even if `start_time` is unset), else one with `start_time` set
reports "running", else "pending". -/
theorem c1_step_status_cases (s : Step) :
    (s.blocked = true → s.status = "blocked") ∧
    (s.blocked = false → s.end_time.isSome = true → s.status = "completed") ∧
    (s.blocked = false → s.end_time = none → s.start_time.isSome = true →
      s.status = "running") ∧
    (s.blocked = false → s.end_time = none → s.start_time = none →
      s.status = "pending") := by
  unfold Step.status
  refine ⟨fun hb => by simp [hb], fun hb he => by simp [hb, he],
          fun hb he hs => by simp [hb, he, hs], fun hb he hs => by simp [hb, he, hs]⟩

/-- Witness for C1's amended theorem at concrete steps. -/
theorem c1_step_status_cases_witness :
    Step.status { name := "w", agent := "a", blocked := true,
                  end_time := some 5 } = "blocked" ∧
    Step.status { name := "w", agent := "a", start_time := some 0,
                  end_time := some 5 } = "completed" ∧
    Step.status { name := "w", agent := "a", start_time := some 0 } = "running" ∧
    Step.status { name := "w", agent := "a" } = "pending" :=
  ⟨(c1_step_status_cases _).1 rfl,
   (c1_step_status_cases _).2.1 rfl rfl,
   (c1_step_status_cases _).2.2.1 rfl rfl rfl,
   (c1_step_status_cases _).2.2.2 rfl rfl rfl⟩

/-- C3: for every Iteration, `completed_steps + blocked_steps ≤ len(steps)`
and `revised_steps + first_pass_steps = len(steps)`. -/
theorem c3_iteration_counts (it : Iteration) :
    it.completed_steps + it.blocked_steps ≤ it.steps.length ∧
    it.revised_steps + it.first_pass_steps = it.steps.length := by
  constructor
  · apply countP_add_countP_le_length
    intro s ⟨h1, h2⟩
    have e1 : s.status = "completed" := by simpa using h1
    have e2 : s.status = "blocked" := by simpa using h2
    rw [e1] at e2
    exact absurd e2 (by decide)
  · exact countP_add_countP_not_eq_length (fun s => s.is_revision) it.steps

/-- C2: loop name resolution is total and deterministic over the catalog —
every id resolves to itself; every display name, in any casing (any string
with the same lowercasing), resolves to its entry's id; and any input
matching neither an id after normalization nor a display name
case-insensitively is rejected with `typer.Exit(1)`. -/
theorem c2_validate_loop_name :
    (∀ l ∈ LOOPS, validate_loop_name LOOPS l.id = .ok l.id) ∧
    (∀ l ∈ LOOPS, ∀ s : String, strLower s = strLower l.display_name →
      validate_loop_name LOOPS s = .ok l.id) ∧
    (∀ s : String,
      (∀ l ∈ LOOPS, l.id ≠ replaceSpaces (strStrip (strLower s))) →
      (∀ l ∈ LOOPS, strLower l.display_name ≠ strLower s) →
      validate_loop_name LOOPS s = .error 1) := by
  refine ⟨by decide, ?_, ?_⟩
  · intro l hl s hs
    have hl' : l = { id := "story-spark", display_name := "Story Spark" } ∨
        l = { id := "hook-harvest", display_name := "Hook Harvest" } := by
      simpa [LOOPS] using hl
    rcases hl' with rfl | rfl
    · have hs' : strLower s = "story spark" := hs.trans (by decide)
      simp only [validate_loop_name, hs']
      decide
    · have hs' : strLower s = "hook harvest" := hs.trans (by decide)
      simp only [validate_loop_name, hs']
      decide
  · intro s h1 h2
    have ha : ("story-spark" == replaceSpaces (strStrip (strLower s))) = false := by
      rw [beq_eq_false_iff_ne]
      exact h1 { id := "story-spark", display_name := "Story Spark" } (by decide)
    have hb : ("hook-harvest" == replaceSpaces (strStrip (strLower s))) = false := by
      rw [beq_eq_false_iff_ne]
      exact h1 { id := "hook-harvest", display_name := "Hook Harvest" } (by decide)
    have hc : (strLower "Story Spark" == strLower s) = false := by
      rw [beq_eq_false_iff_ne]
      exact h2 { id := "story-spark", display_name := "Story Spark" } (by decide)
    have hd : (strLower "Hook Harvest" == strLower s) = false := by
      rw [beq_eq_false_iff_ne]
      exact h2 { id := "hook-harvest", display_name := "Hook Harvest" } (by decide)
    simp only [validate_loop_name, LOOPS, List.any_cons, List.any_nil,
      List.find?_cons, List.find?_nil, ha, hb, hc, hd]
    simp

/-- Witness for C2 at concrete inputs: an id, a cased display name, and an
unknown name. -/
theorem c2_validate_loop_name_witness :
    validate_loop_name LOOPS "story-spark" = .ok "story-spark" ∧
    validate_loop_name LOOPS "STORY SPARK" = .ok "story-spark" ∧
    validate_loop_name LOOPS "not-a-real-loop" = .error 1 :=
  ⟨c2_validate_loop_name.1 { id := "story-spark", display_name := "Story Spark" }
      (by decide),
   c2_validate_loop_name.2.1 { id := "story-spark", display_name := "Story Spark" }
      (by decide) "STORY SPARK" (by decide),
   c2_validate_loop_name.2.2 "not-a-real-loop" (by decide) (by decide)⟩

/-- C4: `stabilized` reflects only the current iteration — it equals the
current iteration's flag when one exists, is false when none exists, and is
not an OR over all iterations: a tracker whose first iteration stabilized but
whose current (second) iteration did not reports false. -/
theorem c4_stabilized_current_only :
    (∀ t : LoopProgressTracker, t.current_iteration = none →
      t.stabilized = false) ∧
    (∀ (t : LoopProgressTracker) (i : Nat) (it : Iteration),
      t.current_iteration = some i → t.iterations.get? i = some it →
      t.stabilized = it.stabilized) ∧
    LoopProgressTracker.stabilized
      { loop_name := "demo",
        iterations :=
          [{ iteration_number := 1, stabilized := true, end_time := some 1 },
           { iteration_number := 2 }],
        start_time := some 0,
        current_iteration := some 1 } = false := by
  refine ⟨?_, ?_, by decide⟩
  · intro t h
    simp [LoopProgressTracker.stabilized, LoopProgressTracker.getCurrent, h]
  · intro t i it h hit
    rw [List.get?_eq_getElem?] at hit
    simp [LoopProgressTracker.stabilized, LoopProgressTracker.getCurrent, h, hit]

/-- Witness for C4 at concrete trackers. -/
theorem c4_stabilized_current_only_witness :
    LoopProgressTracker.stabilized { loop_name := "w" } = false ∧
    LoopProgressTracker.stabilized
      { loop_name := "w",
        iterations := [{ iteration_number := 1, stabilized := true,
                         end_time := some 2 }],
        current_iteration := some 0 } = true :=
  ⟨c4_stabilized_current_only.1 { loop_name := "w" } rfl,
   (c4_stabilized_current_only.2.1
      { loop_name := "w",
        iterations := [{ iteration_number := 1, stabilized := true,
                         end_time := some 2 }],
        current_iteration := some 0 } 0
      { iteration_number := 1, stabilized := true, end_time := some 2 }
      rfl rfl).trans rfl⟩

/-- C5: with at least two iterations, step-reuse efficiency lies in [0, 100]
when there are steps, and the zero-step case is division-guarded and reports
0. -/
theorem c5_efficiency_bounds (t : LoopProgressTracker)
    (_h2 : 2 ≤ t.iterations.length) :
    (0 < totalSteps t →
      0 ≤ efficiency_percent t ∧ efficiency_percent t ≤ 100) ∧
    (totalSteps t = 0 → efficiency_percent t = 0) := by
  have hrev : totalRevised t ≤ totalSteps t := by
    unfold totalRevised totalSteps
    apply List.sum_le_sum
    intro it _
    simp only [Iteration.revised_steps]
    exact List.countP_le_length _
  constructor
  · intro hpos
    have hval : efficiency_percent t =
        if 0 < totalSteps t then
          ((((totalSteps t : ℤ) - (totalRevised t : ℤ)) : ℤ) : ℚ) /
            (totalSteps t : ℚ) * 100
        else 0 := rfl
    rw [hval, if_pos hpos]
    generalize hTdef : totalSteps t = T at hpos hrev
    generalize hRdef : totalRevised t = R at hrev
    have hT : (0 : ℚ) < (T : ℚ) := by exact_mod_cast hpos
    have hR : (R : ℚ) ≤ (T : ℚ) := by exact_mod_cast hrev
    push_cast
    constructor
    · apply mul_nonneg _ (by norm_num)
      apply div_nonneg _ (le_of_lt hT)
      linarith
    · rw [div_mul_eq_mul_div, div_le_iff₀ hT]
      have hRnn : (0 : ℚ) ≤ (R : ℚ) := by positivity
      linarith
  · intro hzero
    simp only [efficiency_percent, totalSteps] at *
    rw [if_neg]
    omega

/-- Witness for C5: a two-iteration tracker with three steps (one revision),
and a two-iteration tracker with no steps. -/
theorem c5_efficiency_bounds_witness :
    (0 ≤ efficiency_percent
        { loop_name := "w",
          iterations :=
            [{ iteration_number := 1,
               steps := [{ name := "a", agent := "x" },
                         { name := "b", agent := "x" }] },
             { iteration_number := 2,
               steps := [{ name := "b", agent := "x", is_revision := true }] }] } ∧
      efficiency_percent
        { loop_name := "w",
          iterations :=
            [{ iteration_number := 1,
               steps := [{ name := "a", agent := "x" },
                         { name := "b", agent := "x" }] },
             { iteration_number := 2,
               steps := [{ name := "b", agent := "x", is_revision := true }] }] } ≤ 100) ∧
    efficiency_percent
      { loop_name := "w",
        iterations := [{ iteration_number := 1 }, { iteration_number := 2 }] } = 0 :=
  ⟨(c5_efficiency_bounds _ (by decide)).1 (by decide),
   (c5_efficiency_bounds _ (by decide)).2 (by decide)⟩

/-- C6: `start_step` raises (`RuntimeError`, modelled as `Except.error`) when
no iteration is active; otherwise it returns a step with `start_time = now`
appended to the current iteration's step list. -/
theorem c6_start_step (t : LoopProgressTracker) (sname agent : String)
    (rev : Bool) (now : Int) :
    (t.current_iteration = none →
      t.start_step sname agent rev now =
        .error "No active iteration. Call start_iteration first.") ∧
    (∀ i, t.current_iteration = some i →
      t.start_step sname agent rev now =
        .ok ({ name := sname, agent := agent, is_revision := rev,
               start_time := some now },
             { t with iterations := updateAt t.iterations i (fun it =>
                 { it with steps := it.steps ++
                     [{ name := sname, agent := agent, is_revision := rev,
                        start_time := some now }] }) })) := by
  constructor
  · intro h
    simp [LoopProgressTracker.start_step, h]
  · intro i h
    simp [LoopProgressTracker.start_step, h]

/-- Witness for C6: no active iteration raises; an active iteration receives
the new running step. -/
theorem c6_start_step_witness :
    LoopProgressTracker.start_step { loop_name := "w" } "draft" "writer" false 7 =
      .error "No active iteration. Call start_iteration first." ∧
    LoopProgressTracker.start_step
      { loop_name := "w", iterations := [{ iteration_number := 1 }],
        current_iteration := some 0 } "draft" "writer" false 7 =
      .ok ({ name := "draft", agent := "writer", start_time := some 7 },
           { loop_name := "w",
             iterations := [{ iteration_number := 1,
                              steps := [{ name := "draft", agent := "writer",
                                          start_time := some 7 }] }],
             current_iteration := some 0 }) :=
  ⟨(c6_start_step _ "draft" "writer" false 7).1 rfl,
   ((c6_start_step _ "draft" "writer" false 7).2 0 rfl).trans (by rfl)⟩

/-- Reading back the updated index of `updateAt`. -/
theorem get?_updateAt {α : Type} (l : List α) (i : Nat) (f : α → α) :
    (updateAt l i f).get? i = (l.get? i).map f := by
  induction l generalizing i with
  | nil => simp [updateAt]
  | cons x xs ih =>
    cases i with
    | zero => simp [updateAt]
    | succ n => simpa [updateAt] using ih n

/-- `updateAt` keeps the C7 invariant when the update itself does. -/
theorem stabImpliesEnd_updateAt (l : List Iteration) (i : Nat)
    (f : Iteration → Iteration)
    (h : ∀ it ∈ l, it.stabilized = true → it.end_time ≠ none)
    (hf : ∀ b ∈ l, (f b).stabilized = true → (f b).end_time ≠ none) :
    ∀ it ∈ updateAt l i f, it.stabilized = true → it.end_time ≠ none := by
  intro it hit
  rcases mem_updateAt hit with hmem | ⟨b, hb, rfl⟩
  · exact h it hmem
  · exact hf b hb

/-- `modifyCurrent` keeps the C7 invariant when the update itself does. -/
theorem stabImpliesEnd_modifyCurrent (t : LoopProgressTracker)
    (f : Iteration → Iteration) (h : stabImpliesEnd t)
    (hf : ∀ b ∈ t.iterations, (f b).stabilized = true → (f b).end_time ≠ none) :
    stabImpliesEnd (t.modifyCurrent f) := by
  cases hc : t.current_iteration with
  | none => simpa [LoopProgressTracker.modifyCurrent, hc] using h
  | some i =>
    simp only [LoopProgressTracker.modifyCurrent, hc, stabImpliesEnd]
    exact stabImpliesEnd_updateAt t.iterations i f h hf

/-- Every single tracker operation keeps the C7 invariant. -/
theorem applyOp_stabImpliesEnd (t : LoopProgressTracker) (op : Op) (now : Int)
    (h : stabImpliesEnd t) : stabImpliesEnd (applyOp t op now) := by
  cases op with
  | start_loop => exact fun it hit => h it hit
  | start_iteration n =>
    intro it hit
    simp only [applyOp, LoopProgressTracker.start_iteration,
      List.mem_append, List.mem_singleton] at hit
    rcases hit with hmem | rfl
    · exact h it hmem
    · intro hs; exact absurd hs (by simp)
  | start_step sname agent rev =>
    cases hc : t.current_iteration with
    | none => simpa [applyOp, LoopProgressTracker.start_step, hc] using h
    | some i =>
      simp only [applyOp, LoopProgressTracker.start_step, hc, stabImpliesEnd]
      exact stabImpliesEnd_updateAt t.iterations i _ h
        (fun b hb hs => h b hb (by simpa using hs))
  | complete_step i j =>
    intro it hit
    simp only [applyOp, LoopProgressTracker.complete_step] at hit
    rcases mem_updateAt hit with hmem | ⟨b, hb, rfl⟩
    · exact h it hmem
    · exact fun hs => h b hb (by simpa using hs)
  | block_step i j issues =>
    intro it hit
    simp only [applyOp, LoopProgressTracker.block_step] at hit
    rcases mem_updateAt hit with hmem | ⟨b, hb, rfl⟩
    · exact h it hmem
    · exact fun hs => h b hb (by simpa using hs)
  | record_showrunner_decision d =>
    exact stabImpliesEnd_modifyCurrent t _ h
      (fun b hb hs => by
        have : b.stabilized = true := by simpa using hs
        simpa using h b hb this)
  | complete_iteration =>
    exact stabImpliesEnd_modifyCurrent t _ h (fun b _ _ => by simp)
  | mark_stabilized =>
    exact stabImpliesEnd_modifyCurrent t _ h (fun b _ _ => by simp)

/-- C7: every sequence of tracker operations preserves "stabilized implies an
end time" across all held iterations, and `mark_stabilized` sets both
`stabilized = true` and `end_time = now` on the current iteration. -/
theorem c7_stabilization_invariant :
    (∀ (ops : List (Op × Int)) (t : LoopProgressTracker),
      stabImpliesEnd t → stabImpliesEnd (runOps t ops)) ∧
    (∀ (t : LoopProgressTracker) (i : Nat) (it : Iteration) (now : Int),
      t.current_iteration = some i → t.iterations.get? i = some it →
      (t.mark_stabilized now).getCurrent =
        some { it with stabilized := true, end_time := some now }) := by
  constructor
  · intro ops
    induction ops with
    | nil => exact fun t h => h
    | cons p rest ih =>
      intro t h
      exact ih (applyOp t p.1 p.2) (applyOp_stabImpliesEnd t p.1 p.2 h)
  · intro t i it now hc hit
    simp only [LoopProgressTracker.mark_stabilized,
      LoopProgressTracker.modifyCurrent, hc, LoopProgressTracker.getCurrent]
    simp only [Option.bind_eq_bind, Option.some_bind]
    rw [get?_updateAt, hit]
    rfl

/-- Witness for C7: a run that starts an iteration and stabilizes it keeps
the invariant, and `mark_stabilized` visibly stamps the current iteration. -/
theorem c7_stabilization_invariant_witness :
    stabImpliesEnd (runOps { loop_name := "w" }
      [(Op.start_loop, 0), (Op.start_iteration 1, 1),
       (Op.start_step "draft" "writer" false, 2), (Op.complete_step 0 0, 3),
       (Op.mark_stabilized, 4)]) ∧
    (LoopProgressTracker.mark_stabilized
      { loop_name := "w", iterations := [{ iteration_number := 1 }],
        current_iteration := some 0 } 9).getCurrent =
      some { iteration_number := 1, stabilized := true, end_time := some 9 } :=
  ⟨c7_stabilization_invariant.1 _ { loop_name := "w" }
      (fun it hit => absurd hit (List.not_mem_nil it)),
   c7_stabilization_invariant.2
      { loop_name := "w", iterations := [{ iteration_number := 1 }],
        current_iteration := some 0 } 0 { iteration_number := 1 } 9 rfl rfl⟩

/-- C8 counterexample: per the claim a seed provided through the
command-line-flag source alone should avert the failure path, but the run
command accepts no seed flag (`run` takes only the loop name and
`--interactive`), so with the environment variable and the workspace file
absent the gate still exits 1. -/
theorem c8_counterexample :
    resolveSeedSpecC8 (some "A dragon heist") none none =
      some "A dragon heist" ∧
    story_spark_gate none none = .error 1 :=
  ⟨rfl, rfl⟩

/-- C8 (amended): the story-spark seed is resolved from the environment
variable (if non-empty) or else the stripped workspace seed file — there is
no command-line flag; the gate exits 1 exactly when that resolution yields
nothing or an empty string, and proceeds otherwise. -/
theorem c8_seed_gate (envSeed fileContent : Option String) :
    (validate_story_spark_seed envSeed fileContent = none ∨
        validate_story_spark_seed envSeed fileContent = some "" →
      story_spark_gate envSeed fileContent = .error 1) ∧
    (∀ s, validate_story_spark_seed envSeed fileContent = some s → s ≠ "" →
      story_spark_gate envSeed fileContent = .ok ()) ∧
    (∀ e, envSeed = some e → e ≠ "" →
      validate_story_spark_seed envSeed fileContent = some e) ∧
    (envSeed = none ∨ envSeed = some "" →
      validate_story_spark_seed envSeed fileContent =
        fileContent.map strStrip) := by
  refine ⟨?_, ?_, ?_, ?_⟩
  · rintro (hn | he)
    · simp [story_spark_gate, hn]
    · simp [story_spark_gate, he]
  · intro s hs hne
    simp [story_spark_gate, hs, hne]
  · intro e he hne
    simp [validate_story_spark_seed, he, hne]
  · rintro (hn | he)
    · simp [validate_story_spark_seed, hn]
    · simp [validate_story_spark_seed, he]

/-- Witness for C8's amended theorem at concrete inputs. -/
theorem c8_seed_gate_witness :
    story_spark_gate none none = .error 1 ∧
    story_spark_gate (some "") (some "  a heist  ") = .ok () ∧
    validate_story_spark_seed (some "idea") (some "other") = some "idea" ∧
    validate_story_spark_seed none (some "  a heist  ") = some "a heist" :=
  ⟨(c8_seed_gate none none).1 (Or.inl rfl),
   (c8_seed_gate (some "") (some "  a heist  ")).2.1 "a heist" (by decide)
      (by decide),
   (c8_seed_gate (some "idea") (some "other")).2.2.1 "idea" rfl (by decide),
   ((c8_seed_gate none (some "  a heist  ")).2.2.2 (Or.inl rfl)).trans
      (by decide)⟩

/-- C9 counterexample: `get_summary` reads the wall clock through
`total_duration`, so two calls on the same unmutated tracker, one second
apart, return different summaries. -/
theorem c9_counterexample :
    LoopProgressTracker.get_summary { loop_name := "x", start_time := some 0 } 0 ≠
    LoopProgressTracker.get_summary { loop_name := "x", start_time := some 0 } 1 := by
  decide

/-- C9 (amended): without intervening mutation, two `get_summary` results
agree on every field except `total_duration`, which tracks the wall clock;
they are fully identical when the loop was never started or when both calls
observe the same clock value. -/
theorem c9_get_summary_deterministic (t : LoopProgressTracker) (n1 n2 : Int) :
    ((t.get_summary n1).loop_name = (t.get_summary n2).loop_name ∧
     (t.get_summary n1).iteration_count = (t.get_summary n2).iteration_count ∧
     (t.get_summary n1).total_steps = (t.get_summary n2).total_steps ∧
     (t.get_summary n1).is_multi_iteration = (t.get_summary n2).is_multi_iteration ∧
     (t.get_summary n1).stabilized = (t.get_summary n2).stabilized ∧
     (t.get_summary n1).iterations = (t.get_summary n2).iterations) ∧
    (t.start_time = none → t.get_summary n1 = t.get_summary n2) ∧
    (n1 = n2 → t.get_summary n1 = t.get_summary n2) := by
  refine ⟨⟨rfl, rfl, rfl, rfl, rfl, rfl⟩, ?_, ?_⟩
  · intro h
    simp [LoopProgressTracker.get_summary, LoopProgressTracker.total_duration, h]
  · intro h
    rw [h]

/-- Witness for C9's amended theorem: a never-started tracker summarizes
identically at different clock readings. -/
theorem c9_get_summary_deterministic_witness :
    LoopProgressTracker.get_summary { loop_name := "y" } 0 =
    LoopProgressTracker.get_summary { loop_name := "y" } 5 :=
  (c9_get_summary_deterministic { loop_name := "y" } 0 5).2.1 rfl

/-- C10: with no current iteration, `complete_iteration`, `mark_stabilized`
and `record_showrunner_decision` are silent no-ops — total functions in this
model (no exception path exists in the source: each is guarded by
`if self.current_iteration:`), returning the tracker with every field
unchanged. -/
theorem c10_noop_without_iteration (t : LoopProgressTracker) (now : Int)
    (d : String) (h : t.current_iteration = none) :
    t.complete_iteration now = t ∧ t.mark_stabilized now = t ∧
    t.record_showrunner_decision d = t := by
  refine ⟨?_, ?_, ?_⟩ <;>
    simp [LoopProgressTracker.complete_iteration,
      LoopProgressTracker.mark_stabilized,
      LoopProgressTracker.record_showrunner_decision,
      LoopProgressTracker.modifyCurrent, h]

/-- Witness for C10 on a fresh tracker. -/
theorem c10_noop_without_iteration_witness :
    LoopProgressTracker.complete_iteration { loop_name := "w" } 3 =
      { loop_name := "w" } ∧
    LoopProgressTracker.mark_stabilized { loop_name := "w" } 3 =
      { loop_name := "w" } ∧
    LoopProgressTracker.record_showrunner_decision { loop_name := "w" } "go" =
      { loop_name := "w" } :=
  c10_noop_without_iteration { loop_name := "w" } 3 "go" rfl

end QF
